import Mathlib

/-!
Verification of the SDRB claim-triage pipeline.

This file gives a shallow embedding, in Lean 4, of the core logic of the
SDRB repository (vendor-claim normalization, record verification and
suspicion scoring) and proves or refutes the frozen specification claims
about it.

Modelling conventions, used throughout:
  * Python strings are modelled as lists of characters (`Str`); the
    lowercase / uppercase / strip operations are the ASCII ones, which
    agree with Python on the ASCII texts the pipeline handles.
  * Python floats are modelled as exact rationals; `round(x, 3)` is
    modelled as round-half-to-even on the exact rational value.
  * The regular expressions of `src/ai/email_parser_llm.py` are compiled,
    construct by construct, into executable backtracking matchers with
    Python's leftmost / alternation-order / greedy semantics.
  * The external LLM extraction provider, the record store and the
    extraction cache are the injected collaborators the spec names: the
    provider is a function returning a parsed output or an error
    (`Except`), the store a record of lookup functions, the cache an
    association list keyed by the content key (the SHA-256 content hash of
    `subject + "\n" + body` is modelled by that content string itself,
    which the hash represents injectively for the purposes of the code).
  * Fallible Python code (raised exceptions) is modelled with `Except`;
    the wall clock read by `datetime.utcnow()` is an explicit argument.
-/

namespace SDRB

/-- Python strings, modelled as lists of characters. -/
abbrev Str := List Char

/-- Lowercase a string, character by character (ASCII case folding,
matching Python `str.lower` on ASCII text). -/
def toLowerStr (s : Str) : Str := s.map Char.toLower

/-- Python's `\s` class (ASCII part), also the set `str.strip()` removes. -/
def isSpaceC (c : Char) : Bool :=
  c = ' ' || c = '\t' || c = '\n' || c = '\x0d' || c = '\x0b' || c = '\x0c'

/-- Python's `\w` class (ASCII part): alphanumeric or underscore. -/
def isWordC (c : Char) : Bool := c.isAlphanum || c = '_'

/-- Word-character test at an optional position (start or end of text is
not a word character). -/
def wordAt : Option Char → Bool
  | none => false
  | some c => isWordC c

/-- Python's `\b`: a boundary stands between two positions exactly when one
side is a word character and the other is not. -/
def atBoundary (prev next : Option Char) : Bool := wordAt prev != wordAt next

/-- Python `str.strip()`: drop leading and trailing whitespace. -/
def stripEnds (s : Str) : Str :=
  ((s.dropWhile isSpaceC).reverse.dropWhile isSpaceC).reverse

/-- Take exactly `k` leading decimal digits, or fail. -/
def takeDigitsN : Nat → Str → Option (Str × Str)
  | 0, l => some ([], l)
  | _ + 1, [] => none
  | k + 1, c :: r =>
    if c.isDigit then (takeDigitsN k r).map (fun p => (c :: p.1, p.2)) else none

/-- After a run of digits, `\b` holds exactly when the next character is
missing or not a word character. -/
def boundaryAfterDigits : Str → Bool
  | [] => true
  | c :: _ => !isWordC c

/-- Backtracking for `\d{lo,hi}\b`: try each repetition count of `ks`
(listed greedily, largest first), requiring a word boundary after the
digits, exactly as Python's backtracking engine does. -/
def tryDigitsB : List Nat → Str → Option (Str × Str)
  | [], _ => none
  | k :: ks, l =>
    match takeDigitsN k l with
    | some (d, rest) =>
      if boundaryAfterDigits rest then some (d, rest) else tryDigitsB ks l
    | none => tryDigitsB ks l

/-- Match `INVOICE_RE = \bINV[-\s]?\d{3,7}\b` (case-insensitive) at one
position; `prev` is the character before the position. Returns the matched
substring. The optional separator is greedy with backtracking. -/
def matchInvAt (prev : Option Char) (l : Str) : Option Str :=
  if atBoundary prev l.head? then
    match l with
    | c1 :: c2 :: c3 :: rest =>
      if c1.toLower = 'i' && c2.toLower = 'n' && c3.toLower = 'v' then
        let noSep : Option Str :=
          (tryDigitsB [7, 6, 5, 4, 3] rest).map (fun p => c1 :: c2 :: c3 :: p.1)
        match rest with
        | s :: rest2 =>
          if s = '-' || isSpaceC s then
            match tryDigitsB [7, 6, 5, 4, 3] rest2 with
            | some p => some (c1 :: c2 :: c3 :: s :: p.1)
            | none => noSep
          else noSep
        | [] => noSep
      else none
    | _ => none
  else none

/-- Match `PO_RE = \b45\d{5,6}\b|\bPO[-\s]?\d{3,7}\b` (case-insensitive) at
one position, first alternative first, as Python's engine does. -/
def matchPOAt (prev : Option Char) (l : Str) : Option Str :=
  if atBoundary prev l.head? then
    let alt1 : Option Str :=
      match l with
      | '4' :: '5' :: rest => (tryDigitsB [6, 5] rest).map (fun p => '4' :: '5' :: p.1)
      | _ => none
    match alt1 with
    | some m => some m
    | none =>
      match l with
      | c1 :: c2 :: rest =>
        if c1.toLower = 'p' && c2.toLower = 'o' then
          let noSep : Option Str :=
            (tryDigitsB [7, 6, 5, 4, 3] rest).map (fun p => c1 :: c2 :: p.1)
          match rest with
          | s :: rest2 =>
            if s = '-' || isSpaceC s then
              match tryDigitsB [7, 6, 5, 4, 3] rest2 with
              | some p => some (c1 :: c2 :: s :: p.1)
              | none => noSep
            else noSep
          | [] => noSep
        else none
      | _ => none
  else none

/-- Python `re.search`: scan the positions left to right, keeping the first
(leftmost) match. `prev` carries the character before the current
position, for `\b`. -/
def searchRe (m : Option Char → Str → Option Str) : Option Char → Str → Option Str
  | prev, [] => m prev []
  | prev, c :: rest =>
    match m prev (c :: rest) with
    | some r => some r
    | none => searchRe m (some c) rest

/-- `extract_invoice_regex` of `src/ai/email_parser_llm.py`: search for the
invoice pattern, then uppercase the match and turn spaces into hyphens. -/
def extract_invoice_regex (text : Str) : Option Str :=
  (searchRe matchInvAt none text).map (fun m =>
    (m.map Char.toUpper).map (fun c => if c = ' ' then '-' else c))

/-- Python `str.replace("PO", "")`: remove the (uppercase) occurrences of
`PO`, non-overlapping, left to right. -/
def stripPO : Str → Str
  | 'P' :: 'O' :: rest => stripPO rest
  | c :: rest => c :: stripPO rest
  | [] => []

/-- Does the string start with the two characters `45`? -/
def startsWith45 : Str → Bool
  | '4' :: '5' :: _ => true
  | _ => false

/-- The normalization `extract_po_regex` applies to a matched PO string:
remove `PO`, remove hyphens, strip whitespace, then prepend `45` exactly
when the result does not already start with `45`. -/
def poNormalize (m : Str) : Str :=
  let v := stripEnds ((stripPO m).filter (fun c => c != '-'))
  if startsWith45 v then v else '4' :: '5' :: v

/-- `extract_po_regex` of `src/ai/email_parser_llm.py`. -/
def extract_po_regex (text : Str) : Option Str :=
  (searchRe matchPOAt none text).map poNormalize

/-- The character class `[,0-9]` of the amount pattern. -/
def inNumCls (c : Char) : Bool := c = ',' || c.isDigit

/-- Greedy `(?:[,0-9]{3})*`: consume as many complete 3-character chunks of
the class as possible. Returns the consumed characters and the rest. -/
def chunks3 : Str → Str × Str
  | a :: b :: c :: rest =>
    if inNumCls a && inNumCls b && inNumCls c then
      let p := chunks3 rest
      (a :: b :: c :: p.1, p.2)
    else ([], a :: b :: c :: rest)
  | l => ([], l)

/-- Greedy `(?:\.\d{1,2})?`: an optional dot followed by one or two digits. -/
def fracOpt : Str → Str × Str
  | '.' :: d1 :: rest =>
    if d1.isDigit then
      match rest with
      | d2 :: rest2 => if d2.isDigit then (['.', d1, d2], rest2) else (['.', d1], rest)
      | [] => (['.', d1], [])
    else ([], '.' :: d1 :: rest)
  | l => ([], l)

/-- Take up to `k` leading digits, greedily. -/
def takeUpTo : Nat → Str → Str × Str
  | 0, l => ([], l)
  | _ + 1, [] => ([], [])
  | k + 1, c :: r =>
    if c.isDigit then
      let p := takeUpTo k r
      (c :: p.1, p.2)
    else ([], c :: r)

/-- The first amount group, `[0-9]{1,3}(?:[,0-9]{3})*(?:\.\d{1,2})?`: at
least one digit; chunks and fraction are greedy and nothing after them can
fail, so no backtracking arises. Returns the matched text and the rest. -/
def numStar (l : Str) : Option (Str × Str) :=
  let d := takeUpTo 3 l
  if d.1.isEmpty then none
  else
    let ch := chunks3 d.2
    let fr := fracOpt ch.2
    some (d.1 ++ ch.1 ++ fr.1, fr.2)

/-- One backtracking attempt for the second amount group with exactly `k`
leading digits: `[0-9]{k}` then at least one chunk, then the optional
fraction. -/
def numPlusTry (k : Nat) (l : Str) : Option (Str × Str) :=
  match takeDigitsN k l with
  | none => none
  | some (d, rest) =>
    let ch := chunks3 rest
    if ch.1.isEmpty then none
    else
      let fr := fracOpt ch.2
      some (d ++ ch.1 ++ fr.1, fr.2)

/-- The second amount group, `[0-9]{1,3}(?:[,0-9]{3})+(?:\.\d{1,2})?`, with
Python's greedy backtracking on the leading digit count (3, then 2, then
1). -/
def numPlus (l : Str) : Option (Str × Str) :=
  match numPlusTry 3 l with
  | some r => some r
  | none =>
    match numPlusTry 2 l with
    | some r => some r
    | none => numPlusTry 1 l

/-- Match `AMOUNT_RE` at one position: the rupee-prefixed alternative
first (its group 1 excludes the currency sign and the optional space),
then the thousands-grouped alternative (group 2 is the whole match).
Returns the group text and the total number of characters consumed. -/
def matchAmtAt (l : Str) : Option (Str × Nat) :=
  match l with
  | '₹' :: rest =>
    match rest with
    | s :: rest2 =>
      if isSpaceC s then
        match numStar rest2 with
        | some (g, _) => some (g, 2 + g.length)
        | none =>
          match numStar rest with
          | some (g, _) => some (g, 1 + g.length)
          | none => none
      else
        match numStar rest with
        | some (g, _) => some (g, 1 + g.length)
        | none => none
    | [] => none
  | _ =>
    match numPlus l with
    | some (g, _) => some (g, g.length)
    | none => none

/-- The scan loop of Python `finditer` over `AMOUNT_RE`: `skip` counts the
characters of the current match still to be stepped over (matches are
non-overlapping, so the scan resumes right after a match); at `skip = 0`
the pattern is tried at the current position and, on a match of `len`
characters, the remaining `len - 1` are skipped. -/
def famGo : ℕ → Str → List Str
  | _ + 1, [] => []
  | skip + 1, _ :: rest => famGo skip rest
  | 0, [] => []
  | 0, c :: rest =>
    match matchAmtAt (c :: rest) with
    | some (g, len) => g :: famGo (len - 1) rest
    | none => famGo 0 rest

/-- Python `finditer` over `AMOUNT_RE`: scan left to right, and after a
match continue right after it. Every match of this pattern consumes at
least one character. -/
def findAmountMatches (l : Str) : List Str := famGo 0 l

/-- Numeric value of a digit string. -/
def digitsVal (l : Str) : ℚ :=
  l.foldl (fun acc c => acc * 10 + ((c.toNat - 48 : ℕ) : ℚ)) 0

/-- Numeric value of a digit string, as a natural number. -/
def digitsNat (l : Str) : ℕ :=
  l.foldl (fun acc c => acc * 10 + (c.toNat - 48)) 0

/-- The optional exponent part of a Python float literal (empty, or
`e`/`E`, an optional sign and digits). -/
def parseExp (l : Str) : Option ℤ :=
  match l with
  | [] => some 0
  | e :: rest =>
    if e = 'e' || e = 'E' then
      let p : ℤ × Str :=
        match rest with
        | '+' :: r => (1, r)
        | '-' :: r => (-1, r)
        | r => (1, r)
      if p.2.isEmpty || !p.2.all Char.isDigit then none
      else some (p.1 * (digitsNat p.2 : ℤ))
    else none

/-- Python's `float(str)` on the decimal forms the pipeline meets:
surrounding whitespace, an optional sign, digits with an optional dot on
either side, and an optional exponent. Non-numeric text yields `none`
(Python raises `ValueError`, which every caller in the code catches).
The special forms `inf`/`nan`/underscores are outside the model. -/
def pyFloatOfStr (s : Str) : Option ℚ :=
  let t := stripEnds s
  let p : ℚ × Str :=
    match t with
    | '+' :: r => (1, r)
    | '-' :: r => (-1, r)
    | r => (1, r)
  let ip := p.2.takeWhile Char.isDigit
  let r1 := p.2.dropWhile Char.isDigit
  match r1 with
  | '.' :: fp =>
    let fd := fp.takeWhile Char.isDigit
    let r2 := fp.dropWhile Char.isDigit
    if ip.isEmpty && fd.isEmpty then none
    else
      match parseExp r2 with
      | some ex => some (p.1 * (digitsVal ip + digitsVal fd / (10 : ℚ) ^ fd.length) * (10 : ℚ) ^ ex)
      | none => none
  | _ =>
    if ip.isEmpty then none
    else
      match parseExp r1 with
      | some ex => some (p.1 * digitsVal ip * (10 : ℚ) ^ ex)
      | none => none

/-- `extract_amounts_regex` of `src/ai/email_parser_llm.py`: every group
matched by the amount pattern, commas removed, coerced with `float`;
a value `float` rejects is skipped (the `except: continue`). -/
def extract_amounts_regex (text : Str) : List ℚ :=
  (findAmountMatches text).filterMap (fun g => pyFloatOfStr (g.filter (fun c => c != ',')))

/-- A JSON-ish Python value, as stored in extraction dicts and in the LLM
output the provider parses. Numbers are exact rationals; `jarr`/`jobj`
stand for list/dict values whose content the pipeline never inspects (the
index keeps distinct such values distinct, with the element count giving
Python truthiness). A key mapped to Python `None` is modelled as the
absent key, since the code only ever distinguishes values via `.get` and
`is not None`. -/
inductive JVal where
  | jbool (b : Bool)
  | jnum (q : ℚ)
  | jstr (s : Str)
  | jarr (n : ℕ)
  | jobj (n : ℕ)
deriving DecidableEq

/-- Python truthiness of a `JVal`. -/
def truthyJV : JVal → Bool
  | .jbool b => b
  | .jnum q => q != 0
  | .jstr s => !s.isEmpty
  | .jarr n => n != 0
  | .jobj n => n != 0

/-- Python truthiness of an optional value that is a string when present. -/
def truthyOS : Option Str → Bool
  | none => false
  | some s => !s.isEmpty

/-- Python truthiness of an optional `JVal` (absent or `None` is falsy). -/
def truthyOJ : Option JVal → Bool
  | none => false
  | some v => truthyJV v

/-- Python truthiness of an optional number. -/
def truthyOQ : Option ℚ → Bool
  | none => false
  | some q => q != 0

/-- Python `float(v)` on a `JVal`: numbers pass through, booleans become
0 or 1, strings go through the `float(str)` grammar, lists and dicts raise
(modelled as `none`; every caller catches the raise). -/
def pyFloatOfJV : JVal → Option ℚ
  | .jnum q => some q
  | .jbool b => some (if b then 1 else 0)
  | .jstr s => pyFloatOfStr s
  | .jarr _ => none
  | .jobj _ => none

/-! ## The suspicion scorer, `src/agents/scorer.py` -/

/-- The contradiction tags `verify` can emit. -/
inductive Tag where
  | not_received_but_grn_exists
  | amount_mismatch
deriving DecidableEq

/-- The claim types the extractor emits; `verify` only ever compares the
claim type against the literal string `not_received`, so the fixed
enumeration models the string faithfully. -/
inductive ClaimType where
  | short_delivery
  | tax_mismatch
  | not_received
  | duplicate_invoice
  | other
deriving DecidableEq

/-- A reason code appended by `compute_score`. -/
inductive Reason where
  | contra (t : Tag)
  | invoice_missing_in_sap
  | non_standard_sender
deriving DecidableEq

/-- The action `compute_score` recommends. -/
inductive Action where
  | AUTO_APPROVE
  | REQUEST_DOCS
  | HOLD_PAYMENT
deriving DecidableEq

/-- The extraction dict, as the verifier and scorer consume it: the fields
`verify` and `compute_score` read. `confidence` is a float when present
(the data-model invariant; `compute_score` applies `float(... or 0.5)` to
it). `claimed_amount` can carry any JSON value, since `verify` coerces it
with `float` and recovers from failure. -/
structure Extraction where
  invoice_number : Option Str
  po_number : Option Str
  claimed_amount : Option JVal
  claim_type : Option ClaimType
  confidence : Option ℚ
deriving DecidableEq

/-- The verification dict `verify` returns. `invoice_status` is only set
when the invoice is found (the key is absent otherwise). -/
structure Verification where
  invoice_exists : Bool
  invoice_id : Option ℤ
  invoice_amount : Option ℚ
  invoice_status : Option Str
  po_exists : Bool
  po_id : Option ℤ
  grn_exists : Bool
  grn_ids : List ℤ
  contradictions : List Tag
deriving DecidableEq

/-- A suspicion-score result. -/
structure ScoreResult where
  suspicious_score : ℚ
  action : Action
  reasons : List Reason
deriving DecidableEq

/-- Round half to even at integer precision, the rule Python's `round`
uses. -/
def bankerRound (x : ℚ) : ℤ :=
  if x - ⌊x⌋ < 1 / 2 then ⌊x⌋
  else if 1 / 2 < x - ⌊x⌋ then ⌊x⌋ + 1
  else if ⌊x⌋ % 2 = 0 then ⌊x⌋ else ⌊x⌋ + 1

/-- Python `round(x, 3)` on the exact value. -/
def round3 (x : ℚ) : ℚ := (bankerRound (x * 1000) : ℚ) / 1000

/-- The effective confidence `compute_score` uses:
`float(extraction.get("confidence", 0.5) or 0.5)` — the default 0.5 for a
missing key, and also for a falsy (zero) value. -/
def confOf (e : Extraction) : ℚ :=
  match e.confidence with
  | none => 1 / 2
  | some c => if c = 0 then 1 / 2 else c

/-- The trusted sender-domain suffix, `@abcchem.com`. -/
def trustedSfx : Str :=
  ['@', 'a', 'b', 'c', 'c', 'h', 'e', 'm', '.', 'c', 'o', 'm']

/-- The sender check of `compute_score`:
`sender and (not sender.lower().endswith("@abcchem.com"))`. -/
def senderFlag (sender : Str) : Bool :=
  !sender.isEmpty && !(trustedSfx.isSuffixOf (toLowerStr sender))

/-- The accumulated base of `compute_score`, before clamping: 1 minus the
effective confidence, plus 0.35 for a non-empty contradiction list, plus
0.30 for a referenced invoice missing in SAP, plus 0.15 for a
non-standard sender. -/
def baseVal (e : Extraction) (v : Verification) (sender : Str) : ℚ :=
  let b0 : ℚ := 1 - confOf e
  let b1 := if !v.contradictions.isEmpty then b0 + 7 / 20 else b0
  let b2 := if truthyOS e.invoice_number && !v.invoice_exists then b1 + 3 / 10 else b1
  if senderFlag sender then b2 + 3 / 20 else b2

/-- The clamped score of `compute_score`: `max(0.0, min(1.0, base))`. This
is the value the action thresholds are compared against (the returned
`suspicious_score` is this value rounded to 3 decimals). -/
def scoreVal (e : Extraction) (v : Verification) (sender : Str) : ℚ :=
  max 0 (min 1 (baseVal e v sender))

/-- The reason codes `compute_score` collects, in its append order. -/
def reasonsOf (e : Extraction) (v : Verification) (sender : Str) : List Reason :=
  (if !v.contradictions.isEmpty then v.contradictions.map Reason.contra else []) ++
  (if truthyOS e.invoice_number && !v.invoice_exists then [Reason.invoice_missing_in_sap] else []) ++
  (if senderFlag sender then [Reason.non_standard_sender] else [])

/-- The action thresholds of `compute_score`, applied to the clamped
(pre-rounding) score. -/
def actionOf (s : ℚ) : Action :=
  if s ≥ 3 / 4 then .HOLD_PAYMENT
  else if s ≥ 7 / 20 then .REQUEST_DOCS
  else .AUTO_APPROVE

/-- `compute_score` of `src/agents/scorer.py`. -/
def compute_score (e : Extraction) (v : Verification) (sender : Str) : ScoreResult :=
  { suspicious_score := round3 (scoreVal e v sender)
    action := actionOf (scoreVal e v sender)
    reasons := reasonsOf e v sender }

/-! ## The record verifier, `src/agents/verifier.py` -/

/-- An invoice row of the record store. -/
structure InvoiceRec where
  invoice_id : ℤ
  amount : Option ℚ
  sap_status : Str
deriving DecidableEq

/-- The record store (the spec's record-lookup interface, consumed through
an acquired connection): invoice lookup by invoice number, purchase-order
lookup by PO number, and goods-receipt lookup by PO id. `verify` receives
`none` when the connection attempt failed (the store is unreachable). -/
structure Store where
  find_invoice : Str → Option InvoiceRec
  find_po : Str → Option ℤ
  find_grns : ℤ → List ℤ

/-- The all-default verification dict `verify` starts from (and returns
unchanged when the store is offline). -/
def offlineVerification : Verification :=
  { invoice_exists := false, invoice_id := none, invoice_amount := none
    invoice_status := none, po_exists := false, po_id := none
    grn_exists := false, grn_ids := [], contradictions := [] }

/-- `verify` of `src/agents/verifier.py`. A `none` store is the offline
case (`_connect` returned `None`); the function never fails. Note the
Python truthiness in the amount-mismatch guard: a claimed amount or a
stored invoice amount equal to 0 is falsy and suppresses the check, and a
claimed amount `float` cannot coerce is swallowed (`except: pass`). -/
def verify (store : Option Store) (e : Extraction) : Verification :=
  match store with
  | none => offlineVerification
  | some st =>
    let v1 :=
      if truthyOS e.invoice_number then
        match st.find_invoice (e.invoice_number.getD []) with
        | some r =>
          { offlineVerification with
              invoice_exists := true, invoice_id := some r.invoice_id
              invoice_amount := r.amount, invoice_status := some r.sap_status }
        | none => offlineVerification
      else offlineVerification
    let v2 :=
      if truthyOS e.po_number then
        match st.find_po (e.po_number.getD []) with
        | some pid =>
          let rows := st.find_grns pid
          if !rows.isEmpty then
            { v1 with po_exists := true, po_id := some pid
                      grn_exists := true, grn_ids := rows }
          else { v1 with po_exists := true, po_id := some pid }
        | none => v1
      else v1
    let c1 : List Tag :=
      if e.claim_type = some .not_received && v2.grn_exists then
        [.not_received_but_grn_exists]
      else []
    let c2 : List Tag :=
      if truthyOJ e.claimed_amount && truthyOQ v2.invoice_amount then
        match pyFloatOfJV (e.claimed_amount.getD (.jnum 0)) with
        | some q => if |q - v2.invoice_amount.getD 0| > 1 then [.amount_mismatch] else []
        | none => []
      else []
    { v2 with contradictions := c1 ++ c2 }

/-! ## The claim normalizer, `extract_structured` of `src/ai/email_parser_llm.py` -/

/-- The parsed output of the external extraction provider: the keys
`extract_structured` reads from the JSON dict, each possibly absent. -/
structure LLMOut where
  invoice_number : Option JVal
  po_number : Option JVal
  invoice_amount : Option JVal
  po_amount : Option JVal
  supplier_name : Option JVal
  issue_summary : Option JVal
deriving DecidableEq

/-- The extraction cache, an association list from content keys to raw
provider outputs (the key-value interface of the caching collaborator). -/
abbrev Cache := List (Str × LLMOut)

/-- Cache lookup (`key in cache` / `cache[key]`). -/
def lookupC (c : Cache) (k : Str) : Option LLMOut :=
  match c with
  | [] => none
  | (k2, v) :: rest => if k2 = k then some v else lookupC rest k

/-- Cache write (`cache[key] = llm_out`): the new binding shadows any old
one. -/
def insertC (k : Str) (v : LLMOut) (c : Cache) : Cache := (k, v) :: c

/-- The `_meta` record `extract_structured` attaches after a merge:
`extracted_at` is the wall-clock reading, `used_llm` the (buggy but
faithful) `key not in cache if cache_file else True`. -/
structure Meta where
  extracted_at : Str
  used_llm : Bool
deriving DecidableEq

/-- The result dict of `extract_structured`. The first four text-ish keys
can hold any JSON value after the merge; the two amount keys are coerced
to a float or `None` by the final coercion loop on every merged path, and
hold the regex floats on the early-return paths. `meta` is absent on the
early-return paths. -/
structure StructuredResult where
  invoice_number : Option JVal
  po_number : Option JVal
  invoice_amount : Option ℚ
  po_amount : Option ℚ
  supplier_name : Option JVal
  issue_summary : Option JVal
  meta : Option Meta
deriving DecidableEq

/-- The pre-merge result dict (amounts still raw JSON values). -/
structure MergeState where
  invoice_number : Option JVal
  po_number : Option JVal
  invoice_amount : Option JVal
  po_amount : Option JVal
  supplier_name : Option JVal
  issue_summary : Option JVal
deriving DecidableEq

/-- The merge guard `result.get(k) in (None, "")`. -/
def nullOrEmpty : Option JVal → Bool
  | none => true
  | some (.jstr []) => true
  | some _ => false

/-- One merge step: keep the current value unless it is `None` or the
empty string and the provider supplied one. -/
def pickField (cur lv : Option JVal) : Option JVal :=
  if nullOrEmpty cur && lv.isSome then lv else cur

/-- The final amount coercion of `extract_structured`: a string goes
through `float` with commas removed, `None` stays `None`, anything else
through `float`; a coercion failure yields `None` (the `except`). -/
def coerceAmt : Option JVal → Option ℚ
  | none => none
  | some (.jstr s) => pyFloatOfStr (s.filter (fun c => c != ','))
  | some (.jnum q) => some q
  | some (.jbool b) => some (if b then 1 else 0)
  | some (.jarr _) => none
  | some (.jobj _) => none

/-- The text `Extracted invoice `. -/
def litExtracted : Str :=
  ['E', 'x', 't', 'r', 'a', 'c', 't', 'e', 'd', ' ', 'i', 'n', 'v', 'o', 'i', 'c', 'e', ' ']

/-- The text ` and PO `. -/
def litAndPO : Str := [' ', 'a', 'n', 'd', ' ', 'P', 'O', ' ']

/-- The text ` via regex`. -/
def litVia : Str := [' ', 'v', 'i', 'a', ' ', 'r', 'e', 'g', 'e', 'x']

/-- The text `Incomplete via regex; LLM disabled`. -/
def litIncomplete : Str :=
  ['I', 'n', 'c', 'o', 'm', 'p', 'l', 'e', 't', 'e', ' ', 'v', 'i', 'a', ' ',
   'r', 'e', 'g', 'e', 'x', ';', ' ', 'L', 'L', 'M', ' ', 'd', 'i', 's', 'a',
   'b', 'l', 'e', 'd']

/-- The text `Merged regex + LLM extraction`. -/
def litMerged : Str :=
  ['M', 'e', 'r', 'g', 'e', 'd', ' ', 'r', 'e', 'g', 'e', 'x', ' ', '+', ' ',
   'L', 'L', 'M', ' ', 'e', 'x', 't', 'r', 'a', 'c', 't', 'i', 'o', 'n']

/-- The combined text `(subject or "") + "\n" + (body or "")` the regex
pass runs over. -/
def textOf (subject body : Str) : Str := subject ++ '\n' :: body

/-- The cache key `_make_key(subject, body)`: the SHA-256 hash of
`subject + "\n" + body`, modelled by that content string itself (the hash
stands for its preimage injectively in every use the code makes of it). -/
def mkKey (subject body : Str) : Str := subject ++ '\n' :: body

/-- The regex pass of `extract_structured`: the initial result dict. -/
def regexPass (subject body : Str) : MergeState :=
  { invoice_number := (extract_invoice_regex (textOf subject body)).map .jstr
    po_number := (extract_po_regex (textOf subject body)).map .jstr
    invoice_amount := (extract_amounts_regex (textOf subject body)).head?.map .jnum
    po_amount := ((extract_amounts_regex (textOf subject body))[1]?).map .jnum
    supplier_name := none
    issue_summary := some (.jstr []) }

/-- The merge, coercion, summary-default and metadata steps of
`extract_structured`, applied once a provider output (fresh or cached) is
in hand. -/
def mergeFinish (ms : MergeState) (lo : LLMOut) (used : Bool) (now : Str) :
    StructuredResult :=
  let isum := pickField ms.issue_summary lo.issue_summary
  { invoice_number := pickField ms.invoice_number lo.invoice_number
    po_number := pickField ms.po_number lo.po_number
    invoice_amount := coerceAmt (pickField ms.invoice_amount lo.invoice_amount)
    po_amount := coerceAmt (pickField ms.po_amount lo.po_amount)
    supplier_name := pickField ms.supplier_name lo.supplier_name
    issue_summary := if truthyOJ isum then isum else some (.jstr litMerged)
    meta := some { extracted_at := now, used_llm := used } }

/-- The early result when the regex pass found both identifiers. -/
def regexOnlyResult (subject body : Str) : StructuredResult :=
  let ms := regexPass subject body
  { invoice_number := ms.invoice_number
    po_number := ms.po_number
    invoice_amount := (extract_amounts_regex (textOf subject body)).head?
    po_amount := (extract_amounts_regex (textOf subject body))[1]?
    supplier_name := none
    issue_summary := some (.jstr
      (litExtracted ++ (extract_invoice_regex (textOf subject body)).getD []
        ++ litAndPO ++ (extract_po_regex (textOf subject body)).getD [] ++ litVia))
    meta := none }

/-- The early result when the regex pass is incomplete and LLM use is
disabled. -/
def llmDisabledResult (subject body : Str) : StructuredResult :=
  let ms := regexPass subject body
  { invoice_number := ms.invoice_number
    po_number := ms.po_number
    invoice_amount := (extract_amounts_regex (textOf subject body)).head?
    po_amount := (extract_amounts_regex (textOf subject body))[1]?
    supplier_name := none
    issue_summary := some (.jstr litIncomplete)
    meta := none }

/-- `extract_structured` of `src/ai/email_parser_llm.py`. The injected
collaborators and effects are explicit: `llm` is the external provider
call together with its JSON sanitising and parsing (an error models both a
failed call and unparseable output, the raises the code does not catch);
`cachePath` is the cache file's content when a cache path was given;
`now` is the wall-clock reading `datetime.utcnow().isoformat()`.
Returns the result (or the propagated error), the final cache file
content, and the number of provider invocations made. -/
def extract_structured (llm : Str → Str → Except Str LLMOut) (subject body : Str)
    (use_llm_if_missing : Bool) (cachePath : Option Cache) (now : Str) :
    Except Str StructuredResult × Option Cache × ℕ :=
  let text := textOf subject body
  let invoice := extract_invoice_regex text
  let po := extract_po_regex text
  if truthyOS invoice && truthyOS po then
    (.ok (regexOnlyResult subject body), cachePath, 0)
  else if use_llm_if_missing = false then
    (.ok (llmDisabledResult subject body), cachePath, 0)
  else
    let cache := cachePath.getD []
    let key := mkKey subject body
    match lookupC cache key with
    | some llm_out =>
      (.ok (mergeFinish (regexPass subject body) llm_out false now), cachePath, 0)
    | none =>
      match llm subject body with
      | .error err => (.error err, cachePath, 1)
      | .ok llm_out =>
        match cachePath with
        | some c =>
          (.ok (mergeFinish (regexPass subject body) llm_out false now),
            some (insertC key llm_out c), 1)
        | none =>
          (.ok (mergeFinish (regexPass subject body) llm_out true now), none, 1)

/-! ## The batch orchestrator, `process_all` of `runner.py` -/

/-- One parsed input record of the batch (the fields `process_all` reads;
`sender` is the record's `from` key). -/
structure Email where
  email_id : Option Str
  subject : Option Str
  sender : Option Str
deriving DecidableEq

/-- One output bundle of the batch. -/
structure Bundle where
  email_id : Option Str
  subject : Option Str
  extraction : Extraction
  verification : Verification
  score : ScoreResult
deriving DecidableEq

/-- `process_all` of `runner.py`: the per-email loop, with the extractor
injected as a fallible function (modelling `extractor.extract`, whose
provider path can raise) and the record store injected as in `verify`.
The loop body has no exception handling, so an error from any stage
propagates out of the whole call: the summary list is only produced (and
written) when every email succeeded. File reading, JSON parsing and
printing are elided. -/
def process_all (ext : Email → Except Str Extraction) (store : Option Store) :
    List Email → Except Str (List Bundle)
  | [] => .ok []
  | em :: rest =>
    match ext em with
    | .error err => .error err
    | .ok extraction =>
      let v := verify store extraction
      let sc := compute_score extraction v (em.sender.getD [])
      match process_all ext store rest with
      | .error err => .error err
      | .ok bs =>
        .ok ({ email_id := em.email_id, subject := em.subject,
               extraction := extraction, verification := v, score := sc } :: bs)

/-! ## Arithmetic lemmas about rounding and clamping -/

theorem bankerRound_bounds (x : ℚ) : ⌊x⌋ ≤ bankerRound x ∧ bankerRound x ≤ ⌊x⌋ + 1 := by
  unfold bankerRound
  split_ifs <;> omega

theorem bankerRound_mono {x y : ℚ} (h : x ≤ y) : bankerRound x ≤ bankerRound y := by
  have hf : ⌊x⌋ ≤ ⌊y⌋ := Int.floor_le_floor h
  rcases eq_or_lt_of_le hf with hf | hf
  · unfold bankerRound
    rw [← hf]
    have hr : x - (⌊x⌋ : ℚ) ≤ y - (⌊x⌋ : ℚ) := by linarith
    split_ifs <;> first
      | omega
      | (exfalso; linarith)
  · have h1 := bankerRound_bounds x
    have h2 := bankerRound_bounds y
    omega

theorem round3_mono {x y : ℚ} (h : x ≤ y) : round3 x ≤ round3 y := by
  unfold round3
  have hb : bankerRound (x * 1000) ≤ bankerRound (y * 1000) :=
    bankerRound_mono (by linarith)
  have hb' : (bankerRound (x * 1000) : ℚ) ≤ (bankerRound (y * 1000) : ℚ) :=
    Int.cast_le.mpr hb
  linarith

theorem round3_zero : round3 0 = 0 := by
  unfold round3 bankerRound
  norm_num

theorem round3_one : round3 1 = 1 := by
  unfold round3 bankerRound
  norm_num

theorem round3_mem_unit {x : ℚ} (h0 : 0 ≤ x) (h1 : x ≤ 1) :
    0 ≤ round3 x ∧ round3 x ≤ 1 := by
  constructor
  · have := round3_mono h0
    rwa [round3_zero] at this
  · have := round3_mono h1
    rwa [round3_one] at this

theorem scoreVal_mem_unit (e : Extraction) (v : Verification) (s : Str) :
    0 ≤ scoreVal e v s ∧ scoreVal e v s ≤ 1 := by
  unfold scoreVal
  constructor
  · exact le_max_left 0 _
  · exact max_le (by norm_num) (min_le_left 1 _)

theorem scoreVal_mono_base (e₁ e₂ : Extraction) (v₁ v₂ : Verification) (s₁ s₂ : Str)
    (h : baseVal e₁ v₁ s₁ ≤ baseVal e₂ v₂ s₂) :
    scoreVal e₁ v₁ s₁ ≤ scoreVal e₂ v₂ s₂ := by
  unfold scoreVal
  exact max_le_max le_rfl (min_le_min le_rfl h)

theorem actionOf_spec (x : ℚ) :
    (actionOf x = .HOLD_PAYMENT ↔ 3 / 4 ≤ x) ∧
    (actionOf x = .REQUEST_DOCS ↔ 7 / 20 ≤ x ∧ x < 3 / 4) ∧
    (actionOf x = .AUTO_APPROVE ↔ x < 7 / 20) := by
  unfold actionOf
  split_ifs with h1 h2
  · exact ⟨⟨fun _ => h1, fun _ => rfl⟩,
      ⟨fun hx => absurd hx (by decide), fun hx => absurd h1 (not_le.mpr hx.2)⟩,
      ⟨fun hx => absurd hx (by decide), fun hx => absurd h1 (not_le.mpr (by linarith))⟩⟩
  · exact ⟨⟨fun hx => absurd hx (by decide), fun hx => absurd hx h1⟩,
      ⟨fun _ => ⟨h2, not_le.mp h1⟩, fun _ => rfl⟩,
      ⟨fun hx => absurd hx (by decide), fun hx => absurd h2 (not_le.mpr hx)⟩⟩
  · exact ⟨⟨fun hx => absurd hx (by decide), fun hx => absurd hx h1⟩,
      ⟨fun hx => absurd hx (by decide), fun hx => absurd hx.1 h2⟩,
      ⟨fun _ => not_le.mp h2, fun _ => rfl⟩⟩

/-! ## Claim C1 -/

/-- The extraction of the C1 counterexample: an effective confidence of
0.2504 and no other risk signal. -/
def c1ext : Extraction :=
  { invoice_number := none, po_number := none, claimed_amount := none
    claim_type := none, confidence := some (313 / 1250) }

/-- Claim C1, counterexample. The claim reads the action off the returned
(3-decimal-rounded) score, but `compute_score` compares the thresholds
against the clamped score before rounding: with confidence 0.2504 the
clamped score is 0.7496, so the action is `REQUEST_DOCS`, yet the
returned `suspicious_score` rounds up to exactly 0.75 — a result whose
score equals 0.75 without `HOLD_PAYMENT`. -/
theorem c1_counterexample :
    (compute_score c1ext offlineVerification []).suspicious_score = 3 / 4 ∧
    (compute_score c1ext offlineVerification []).action = Action.REQUEST_DOCS := by
  have hsv : scoreVal c1ext offlineVerification [] = 937 / 1250 := by
    simp only [scoreVal, baseVal, confOf, senderFlag, truthyOS, c1ext, offlineVerification,
      List.isEmpty_nil, Bool.not_true, Bool.false_and, if_false, Bool.and_false]
    norm_num
  constructor
  · show round3 (scoreVal c1ext offlineVerification []) = 3 / 4
    rw [hsv]
    unfold round3 bankerRound
    norm_num
  · show actionOf (scoreVal c1ext offlineVerification []) = Action.REQUEST_DOCS
    rw [hsv]
    unfold actionOf
    norm_num

/-- Claim C1 (amended): for every extraction, verification and sender the
returned `suspicious_score` lies in the unit interval and equals the
3-decimal rounding of the clamped score, and the action is determined by
the clamped score before rounding: `HOLD_PAYMENT` exactly when it is at
least 0.75, `REQUEST_DOCS` exactly when it is at least 0.35 and below
0.75, `AUTO_APPROVE` exactly when it is below 0.35 (so a clamped score of
exactly 0.75, 0.35 or 0.349 yields `HOLD_PAYMENT`, `REQUEST_DOCS` or
`AUTO_APPROVE` respectively, and is returned unchanged by the rounding). -/
theorem c1_score_bounds_thresholds (e : Extraction) (v : Verification) (s : Str) :
    0 ≤ (compute_score e v s).suspicious_score ∧
    (compute_score e v s).suspicious_score ≤ 1 ∧
    (compute_score e v s).suspicious_score = round3 (scoreVal e v s) ∧
    ((compute_score e v s).action = Action.HOLD_PAYMENT ↔ 3 / 4 ≤ scoreVal e v s) ∧
    ((compute_score e v s).action = Action.REQUEST_DOCS ↔
      7 / 20 ≤ scoreVal e v s ∧ scoreVal e v s < 3 / 4) ∧
    ((compute_score e v s).action = Action.AUTO_APPROVE ↔ scoreVal e v s < 7 / 20) := by
  have hb := scoreVal_mem_unit e v s
  have hr := round3_mem_unit hb.1 hb.2
  have ha := actionOf_spec (scoreVal e v s)
  exact ⟨hr.1, hr.2, rfl, ha.1, ha.2.1, ha.2.2⟩

/-! ## Claim C2 -/

/-- The first batch email of the C2 counterexample (its extraction
raises). -/
def c2email1 : Email := { email_id := some ['1'], subject := none, sender := none }

/-- The second batch email of the C2 counterexample (its extraction
succeeds). -/
def c2email2 : Email := { email_id := some ['2'], subject := none, sender := none }

/-- The injected extractor of the C2 counterexample: raises on the first
email, succeeds on every other. -/
def c2ext : Email → Except Str Extraction := fun em =>
  if em.email_id = some ['1'] then .error ['b', 'o', 'o', 'm']
  else .ok { invoice_number := none, po_number := none, claimed_amount := none
             claim_type := none, confidence := some (3 / 5) }

/-- Claim C2, counterexample: `process_all` has no per-email exception
handling, so when the first email's extraction raises, the whole batch
call propagates the error — the second email is never processed and no
bundle at all appears in an output. -/
theorem c2_counterexample :
    process_all c2ext none [c2email1, c2email2] = .error ['b', 'o', 'o', 'm'] := rfl

/-- Claim C2 (amended): if processing any email of the batch raises, the
orchestrator run as a whole fails with an error — no bundle list is
produced for any email (the loop is not isolated per item). -/
theorem c2_batch_aborts (ext : Email → Except Str Extraction) (store : Option Store)
    (emails : List Email) (em : Email) (err : Str)
    (h1 : em ∈ emails) (h2 : ext em = .error err) :
    ∃ e2, process_all ext store emails = .error e2 := by
  induction emails with
  | nil => exact absurd h1 (List.not_mem_nil em)
  | cons a rest ih =>
    rcases List.mem_cons.mp h1 with rfl | hmem
    · exact ⟨err, by simp [process_all, h2]⟩
    · rcases ih hmem with ⟨e2, he2⟩
      cases hext : ext a with
      | error e => exact ⟨e, by simp [process_all, hext]⟩
      | ok x => exact ⟨e2, by simp [process_all, hext, he2]⟩

/-- Claim C2, witness for the amended theorem at a concrete batch. -/
theorem c2_batch_aborts_witness :
    ∃ e2, process_all c2ext none [c2email1, c2email2] = .error e2 :=
  c2_batch_aborts c2ext none [c2email1, c2email2] c2email1 ['b', 'o', 'o', 'm']
    (List.mem_cons_self c2email1 [c2email2]) rfl

/-! ## Claim C3 -/

/-- The body text `INV-4521 450012345` of the C3 round-trip. -/
def c3body : Str :=
  ['I', 'N', 'V', '-', '4', '5', '2', '1', ' ',
   '4', '5', '0', '0', '1', '2', '3', '4', '5']

/-- Claim C3, counterexample: on a body containing exactly the two quoted
substrings, the invoice comes out as `INV-4521` but the PO pattern does
not match at all — the bare-digit alternative `\b45\d{5,6}\b` accepts only
7 or 8 digit runs and `450012345` has 9 — so PO extraction returns `None`,
not `45450012345` (which the normalization could also never produce, as it
leaves a digit string already starting with `45` unprefixed). -/
theorem c3_counterexample :
    extract_invoice_regex c3body = some ['I', 'N', 'V', '-', '4', '5', '2', '1'] ∧
    extract_po_regex c3body = none := by
  constructor <;> rfl

/-- Claim C3 (amended): on the body `INV-4521 450012345` pattern
extraction yields invoice `INV-4521` and no PO number; and in general,
whenever the PO pattern matches, the returned PO number is the matched
string with `PO` and hyphens removed and whitespace stripped, with `45`
prepended exactly when the stripped string does not already start with
`45`. -/
theorem c3_po_round_trip :
    (extract_invoice_regex c3body = some ['I', 'N', 'V', '-', '4', '5', '2', '1'] ∧
      extract_po_regex c3body = none) ∧
    (∀ text m, searchRe matchPOAt none text = some m →
      extract_po_regex text =
        some (if startsWith45 (stripEnds ((stripPO m).filter (fun c => c != '-')))
              then stripEnds ((stripPO m).filter (fun c => c != '-'))
              else '4' :: '5' :: stripEnds ((stripPO m).filter (fun c => c != '-')))) := by
  refine ⟨⟨rfl, rfl⟩, ?_⟩
  intro text m h
  unfold extract_po_regex poNormalize
  rw [h]
  rfl

/-! ## Claim C4 -/

/-- The provider output stored in the warm cache of the C4 scenario. -/
def c4out : LLMOut :=
  { invoice_number := none, po_number := none, invoice_amount := none
    po_amount := none, supplier_name := none, issue_summary := none }

/-- A warm cache for subject `s`, body `b`. -/
def c4cache : Cache := [(mkKey ['s'] ['b'], c4out)]

/-- A provider that always fails (it is never reached on a warm cache). -/
def c4llm : Str → Str → Except Str LLMOut := fun _ _ => .error []

/-- The result of the warm-cache run of the C4 scenario at clock reading
`n`. -/
def c4res (n : Str) : StructuredResult :=
  { invoice_number := none, po_number := none, invoice_amount := none
    po_amount := none, supplier_name := none
    issue_summary := some (.jstr litMerged)
    meta := some { extracted_at := n, used_llm := false } }

/-- Claim C4, counterexample: two warm-cache calls of `extract_structured`
on the same `(subject, body)` are not identical, because the result embeds
the wall-clock reading in `_meta.extracted_at` — at clock readings `1` and
`2` the two returned dicts differ. -/
theorem c4_counterexample :
    extract_structured c4llm ['s'] ['b'] true (some c4cache) ['1'] ≠
      extract_structured c4llm ['s'] ['b'] true (some c4cache) ['2'] := by
  have h1 : extract_structured c4llm ['s'] ['b'] true (some c4cache) ['1'] =
      (.ok (c4res ['1']), some c4cache, 0) := rfl
  have h2 : extract_structured c4llm ['s'] ['b'] true (some c4cache) ['2'] =
      (.ok (c4res ['2']), some c4cache, 0) := rfl
  intro h
  rw [h1, h2] at h
  simp only [Prod.mk.injEq, Except.ok.injEq] at h
  exact absurd h.1 (by decide)

/-- Erase the wall-clock component of a result (the `_meta.extracted_at`
value). -/
def eraseTime (r : Except Str StructuredResult) : Except Str StructuredResult :=
  r.map (fun x => { x with meta := x.meta.map (fun m => { m with extracted_at := [] }) })

/-- Claim C4 (amended): on a warm cache, two calls of `extract_structured`
with the same `(subject, body)` agree on every field of the result except
the `_meta.extracted_at` clock reading (and on the whole result when the
two clock readings coincide); neither call touches the cache or invokes
the provider, whatever provider is injected. -/
theorem c4_warm_cache_idempotent (llm₁ llm₂ : Str → Str → Except Str LLMOut)
    (subject body : Str) (c : Cache) (out : LLMOut) (n₁ n₂ : Str)
    (h : lookupC c (mkKey subject body) = some out) :
    eraseTime (extract_structured llm₁ subject body true (some c) n₁).1 =
      eraseTime (extract_structured llm₂ subject body true (some c) n₂).1 ∧
    (extract_structured llm₁ subject body true (some c) n₁).2.1 = some c ∧
    (extract_structured llm₁ subject body true (some c) n₁).2.2 = 0 := by
  unfold extract_structured
  by_cases hc : (truthyOS (extract_invoice_regex (textOf subject body)) &&
      truthyOS (extract_po_regex (textOf subject body))) = true
  · simp [hc]
  · simp only [Bool.not_eq_true] at hc
    simp [hc, h, eraseTime, mergeFinish]
    rfl

/-- Claim C4, witness for the amended theorem at the concrete warm-cache
scenario. -/
theorem c4_warm_cache_witness :
    eraseTime (extract_structured c4llm ['s'] ['b'] true (some c4cache) ['1']).1 =
      eraseTime (extract_structured c4llm ['s'] ['b'] true (some c4cache) ['2']).1 ∧
    (extract_structured c4llm ['s'] ['b'] true (some c4cache) ['1']).2.1 = some c4cache ∧
    (extract_structured c4llm ['s'] ['b'] true (some c4cache) ['1']).2.2 = 0 :=
  c4_warm_cache_idempotent c4llm c4llm ['s'] ['b'] c4cache c4out ['1'] ['2'] rfl

/-! ## Claim C5 -/

/-- Claim C5: the normalizer consults the provider at most once per call;
with consultation enabled, it never consults the provider when the regex
pass found both identifiers (it returns the regex-only result
immediately, for any injected provider), nor on a cache hit (it returns
the merge of the cached output, leaving the cache unchanged); on a miss
it consults the provider once — a provider error propagates unchanged
with no fallback result and no cache write, and on success the raw
provider output is written to the cache under the content key in the
returned cache state. -/
theorem c5_provider_at_most_once :
    (∀ llm s b u cp now, (extract_structured llm s b u cp now).2.2 ≤ 1) ∧
    (∀ llm s b cp now,
      truthyOS (extract_invoice_regex (textOf s b)) = true →
      truthyOS (extract_po_regex (textOf s b)) = true →
      extract_structured llm s b true cp now = (.ok (regexOnlyResult s b), cp, 0)) ∧
    (∀ llm s b c out now,
      (truthyOS (extract_invoice_regex (textOf s b)) &&
        truthyOS (extract_po_regex (textOf s b))) = false →
      lookupC c (mkKey s b) = some out →
      extract_structured llm s b true (some c) now =
        (.ok (mergeFinish (regexPass s b) out false now), some c, 0)) ∧
    (∀ llm s b c now err,
      (truthyOS (extract_invoice_regex (textOf s b)) &&
        truthyOS (extract_po_regex (textOf s b))) = false →
      lookupC c (mkKey s b) = none →
      llm s b = .error err →
      extract_structured llm s b true (some c) now = (.error err, some c, 1)) ∧
    (∀ llm s b c now out,
      (truthyOS (extract_invoice_regex (textOf s b)) &&
        truthyOS (extract_po_regex (textOf s b))) = false →
      lookupC c (mkKey s b) = none →
      llm s b = .ok out →
      extract_structured llm s b true (some c) now =
        (.ok (mergeFinish (regexPass s b) out false now),
          some (insertC (mkKey s b) out c), 1)) := by
  refine ⟨?_, ?_, ?_, ?_, ?_⟩
  · intro llm s b u cp now
    unfold extract_structured
    by_cases hc : (truthyOS (extract_invoice_regex (textOf s b)) &&
        truthyOS (extract_po_regex (textOf s b))) = true
    · simp [hc]
    · by_cases hu : u = false
      · simp [hc, hu]
      · rcases cp with _ | c
        · cases hl : lookupC ([] : Cache) (mkKey s b)
          · cases hllm : llm s b <;> simp [hc, hu, hl, hllm]
          · simp [hc, hu, hl]
        · cases hl : lookupC c (mkKey s b)
          · cases hllm : llm s b <;> simp [hc, hu, hl, hllm]
          · simp [hc, hu, hl]
  · intro llm s b cp now h1 h2
    unfold extract_structured
    simp [h1, h2]
  · intro llm s b c out now hc h
    unfold extract_structured
    simp [hc, h]
  · intro llm s b c now err hc h hl
    unfold extract_structured
    simp [hc, h, hl]
  · intro llm s b c now out hc h hl
    unfold extract_structured
    simp [hc, h, hl]

/-! ## Claim C6 -/

/-- Claim C6: for every extraction, an unreachable record store makes
`verify` return the all-default verification — all existence flags false,
all id, amount and status fields null, no goods-receipt ids and an empty
contradiction list — regardless of the extraction's content (and `verify`
is a total function: the offline case is an ordinary return, never a
failure). -/
theorem c6_offline_store (e : Extraction) :
    verify none e = offlineVerification ∧
    (verify none e).invoice_exists = false ∧
    (verify none e).po_exists = false ∧
    (verify none e).grn_exists = false ∧
    (verify none e).invoice_id = none ∧
    (verify none e).invoice_amount = none ∧
    (verify none e).invoice_status = none ∧
    (verify none e).po_id = none ∧
    (verify none e).grn_ids = [] ∧
    (verify none e).contradictions = [] :=
  ⟨rfl, rfl, rfl, rfl, rfl, rfl, rfl, rfl, rfl, rfl⟩

/-! ## Claims C7 and C8: the contradiction list of `verify` -/

/-- The contradiction list `verify` builds when the store is reachable:
the `not_received_but_grn_exists` check first, then the `amount_mismatch`
check, each contributing at most one tag, in that order. The
`amount_mismatch` check only runs when the claimed amount and the
looked-up invoice amount are both truthy (present and nonzero), and a
claimed amount `float` cannot coerce contributes nothing. -/
theorem verify_contradictions_eq (st : Store) (e : Extraction) :
    (verify (some st) e).contradictions =
      (if e.claim_type = some .not_received && (verify (some st) e).grn_exists then
        [Tag.not_received_but_grn_exists] else []) ++
      (if truthyOJ e.claimed_amount && truthyOQ (verify (some st) e).invoice_amount then
        match pyFloatOfJV (e.claimed_amount.getD (.jnum 0)) with
        | some q =>
          if |q - (verify (some st) e).invoice_amount.getD 0| > 1 then
            [Tag.amount_mismatch] else []
        | none => []
      else []) := rfl

/-- The record store of the C7 counterexample: purchase order `7` exists
with a goods receipt. -/
def st7 : Store :=
  { find_invoice := fun _ => none
    find_po := fun p => if p = ['7'] then some 1 else none
    find_grns := fun i => if i = 1 then [5] else [] }

/-- The extraction of the C7 counterexample: a `not_received` claim
against PO `7`, with confidence 0.1. -/
def e7 : Extraction :=
  { invoice_number := none, po_number := some ['7'], claimed_amount := none
    claim_type := some .not_received, confidence := some (1 / 10) }

/-- Claim C7, counterexample: the contradiction is flagged, but the score
is clamped to 1.0, so with confidence 0.1 the returned score 1.0 is
strictly below the claimed lower bound `1 - confidence + 0.35 = 1.25`. -/
theorem c7_counterexample :
    Tag.not_received_but_grn_exists ∈ (verify (some st7) e7).contradictions ∧
    (compute_score e7 (verify (some st7) e7) []).suspicious_score = 1 ∧
    ¬(1 - (1 / 10 : ℚ) + 7 / 20 ≤
        (compute_score e7 (verify (some st7) e7) []).suspicious_score) := by
  have hv : verify (some st7) e7 =
      { offlineVerification with
          po_exists := true
          po_id := some 1
          grn_exists := true
          grn_ids := [5]
          contradictions := [.not_received_but_grn_exists] } := rfl
  have hsv : scoreVal e7 (verify (some st7) e7) [] = 1 := by
    rw [hv]
    simp only [scoreVal, baseVal, confOf, senderFlag, truthyOS, e7, offlineVerification,
      List.isEmpty_nil, Bool.not_true, Bool.false_and, if_false, Bool.and_false]
    norm_num
  refine ⟨by rw [hv]; simp, ?_, ?_⟩
  · show round3 (scoreVal e7 (verify (some st7) e7) []) = 1
    rw [hsv, round3_one]
  · show ¬(1 - (1 / 10 : ℚ) + 7 / 20 ≤ round3 (scoreVal e7 (verify (some st7) e7) []))
    rw [hsv, round3_one]
    norm_num

/-- Claim C7 (amended): whenever a `not_received` claim's verification
finds goods receipts, the contradiction list contains
`not_received_but_grn_exists`; the clamped pre-rounding score then sits
at least at `min 1 (1 - confidence + 0.35)` (the 0.35 increment applies,
but the bound is capped by the clamp at 1.0), and the returned
`suspicious_score` is its 3-decimal rounding (so it can sit up to 0.0005
below that bound). -/
theorem c7_contradiction_scoring (st : Store) (e : Extraction) (sender : Str)
    (h1 : e.claim_type = some .not_received)
    (h2 : (verify (some st) e).grn_exists = true) :
    Tag.not_received_but_grn_exists ∈ (verify (some st) e).contradictions ∧
    min 1 (1 - confOf e + 7 / 20) ≤ scoreVal e (verify (some st) e) sender ∧
    (compute_score e (verify (some st) e) sender).suspicious_score =
      round3 (scoreVal e (verify (some st) e) sender) := by
  have hmem : Tag.not_received_but_grn_exists ∈ (verify (some st) e).contradictions := by
    rw [verify_contradictions_eq st e]
    simp [h1, h2]
  refine ⟨hmem, ?_, rfl⟩
  have hne : (verify (some st) e).contradictions ≠ [] := List.ne_nil_of_mem hmem
  have hie : (verify (some st) e).contradictions.isEmpty = false := by
    cases hx : (verify (some st) e).contradictions
    · exact absurd hx hne
    · rfl
  have hbase : 1 - confOf e + 7 / 20 ≤ baseVal e (verify (some st) e) sender := by
    unfold baseVal
    simp only [hie, Bool.not_false, if_true]
    split_ifs <;> linarith
  calc min 1 (1 - confOf e + 7 / 20)
      ≤ min 1 (baseVal e (verify (some st) e) sender) := min_le_min le_rfl hbase
    _ ≤ max 0 (min 1 (baseVal e (verify (some st) e) sender)) := le_max_right _ _

/-- Claim C7, witness for the amended theorem at the concrete scenario. -/
theorem c7_contradiction_scoring_witness :
    Tag.not_received_but_grn_exists ∈ (verify (some st7) e7).contradictions ∧
    min 1 (1 - confOf e7 + 7 / 20) ≤ scoreVal e7 (verify (some st7) e7) [] ∧
    (compute_score e7 (verify (some st7) e7) []).suspicious_score =
      round3 (scoreVal e7 (verify (some st7) e7) []) :=
  c7_contradiction_scoring st7 e7 [] rfl rfl

/-- The record store of the C8 counterexample: invoice `i` exists with
amount 100. -/
def st8 : Store :=
  { find_invoice := fun s =>
      if s = ['i'] then some { invoice_id := 1, amount := some 100, sap_status := ['o', 'k'] }
      else none
    find_po := fun _ => none
    find_grns := fun _ => [] }

/-- The extraction of the C8 counterexample: a present claimed amount of
exactly 0. -/
def e8 : Extraction :=
  { invoice_number := some ['i'], po_number := none
    claimed_amount := some (.jnum 0), claim_type := none, confidence := some (3 / 5) }

/-- Claim C8, counterexample: the claimed amount 0 and the looked-up
invoice amount 100 are both present and differ by more than 1.0, yet no
`amount_mismatch` is appended — the guard uses Python truthiness, and a
zero amount is falsy, so the check is skipped. -/
theorem c8_counterexample :
    (verify (some st8) e8).invoice_amount = some 100 ∧
    e8.claimed_amount = some (JVal.jnum 0) ∧
    (1 : ℚ) < |0 - 100| ∧
    Tag.amount_mismatch ∉ (verify (some st8) e8).contradictions := by
  have hc : (verify (some st8) e8).contradictions = [] := by
    rw [verify_contradictions_eq st8 e8]
    have ht : truthyOJ (some (JVal.jnum 0)) = false := by
      simp [truthyOJ, truthyJV]
    simp [e8, ht]
  refine ⟨rfl, rfl, by norm_num, ?_⟩
  simp [hc]

/-- Claim C8 (amended): with a reachable store, the contradiction list is
exactly the `not_received_but_grn_exists` check's result followed by the
`amount_mismatch` check's result; `amount_mismatch` is appended exactly
when the claimed amount and the looked-up invoice amount are both present
and nonzero (Python truthiness), the claimed amount coerces to a number,
and the two differ by more than 1.0 — a coercion failure appends nothing;
each tag occurs at most once per invocation, and the offline case appends
nothing. -/
theorem c8_amount_mismatch (st : Store) (e : Extraction) :
    ((verify (some st) e).contradictions =
      (if e.claim_type = some .not_received && (verify (some st) e).grn_exists then
        [Tag.not_received_but_grn_exists] else []) ++
      (if truthyOJ e.claimed_amount && truthyOQ (verify (some st) e).invoice_amount then
        match pyFloatOfJV (e.claimed_amount.getD (.jnum 0)) with
        | some q =>
          if |q - (verify (some st) e).invoice_amount.getD 0| > 1 then
            [Tag.amount_mismatch] else []
        | none => []
      else [])) ∧
    (verify (some st) e).contradictions.count Tag.amount_mismatch ≤ 1 ∧
    (verify (some st) e).contradictions.count Tag.not_received_but_grn_exists ≤ 1 ∧
    (verify none e).contradictions = [] := by
  refine ⟨verify_contradictions_eq st e, ?_, ?_, rfl⟩ <;>
  · rw [verify_contradictions_eq st e, List.count_append]
    rcases hpf : pyFloatOfJV (e.claimed_amount.getD (.jnum 0)) with _ | q <;>
      split_ifs <;> simp <;> (try (split <;> simp))

/-! ## Claim C9 -/

/-- Claim C9: the returned `suspicious_score` is monotone in each risk
signal — with other inputs fixed, a non-empty contradiction list scores
at least as high as an empty one; a referenced invoice marked missing
scores at least as high as one marked existing; and a sender whose
lowercased address does not end in the trusted suffix scores at least as
high as a trusted sender. -/
theorem c9_monotonicity :
    (∀ (e : Extraction) (v : Verification) (s : Str) (l : List Tag), l ≠ [] →
      (compute_score e { v with contradictions := [] } s).suspicious_score ≤
        (compute_score e { v with contradictions := l } s).suspicious_score) ∧
    (∀ (e : Extraction) (v : Verification) (s : Str), truthyOS e.invoice_number = true →
      (compute_score e { v with invoice_exists := true } s).suspicious_score ≤
        (compute_score e { v with invoice_exists := false } s).suspicious_score) ∧
    (∀ (e : Extraction) (v : Verification) (t u : Str),
        trustedSfx.isSuffixOf (toLowerStr t) = true →
        trustedSfx.isSuffixOf (toLowerStr u) = false →
      (compute_score e v t).suspicious_score ≤ (compute_score e v u).suspicious_score) := by
  refine ⟨?_, ?_, ?_⟩
  · intro e v s l hl
    apply round3_mono
    apply scoreVal_mono_base
    have hle : l.isEmpty = false := by
      cases l
      · exact absurd rfl hl
      · rfl
    unfold baseVal
    simp only [hle, List.isEmpty_nil, Bool.not_false, Bool.not_true, if_true, if_false]
    split_ifs <;> linarith
  · intro e v s h
    apply round3_mono
    apply scoreVal_mono_base
    unfold baseVal
    simp only [h, Bool.not_false, Bool.not_true, Bool.and_false, Bool.and_true, if_true, if_false]
    split_ifs <;> linarith
  · intro e v t u ht hu
    apply round3_mono
    apply scoreVal_mono_base
    unfold baseVal senderFlag
    simp only [ht, hu, Bool.not_false, Bool.not_true, Bool.and_false, Bool.and_true]
    split_ifs <;> first | linarith | simp_all

/-! ## Claim C10 -/

/-- Claim C10: the trusted-sender test lowercases the sender before the
suffix check, so a sender that differs from a trusted address only in
letter case incurs no 0.15 increment and no `non_standard_sender` reason
(the whole score result coincides with the trusted sender's); the empty
sender string likewise never incurs the penalty. -/
theorem c10_case_insensitive_sender :
    (∀ (e : Extraction) (v : Verification) (s t : Str),
        trustedSfx.isSuffixOf (toLowerStr t) = true → toLowerStr s = toLowerStr t →
        senderFlag s = false ∧ compute_score e v s = compute_score e v t ∧
        Reason.non_standard_sender ∉ (compute_score e v s).reasons) ∧
    (∀ (e : Extraction) (v : Verification),
        senderFlag [] = false ∧
        Reason.non_standard_sender ∉ (compute_score e v ([] : Str)).reasons) := by
  constructor
  · intro e v s t ht hst
    have hs : trustedSfx.isSuffixOf (toLowerStr s) = true := by rw [hst]; exact ht
    have hfs : senderFlag s = false := by simp [senderFlag, hs]
    have hft : senderFlag t = false := by simp [senderFlag, ht]
    refine ⟨hfs, ?_, ?_⟩
    · unfold compute_score scoreVal baseVal reasonsOf
      simp only [hfs, hft, Bool.false_eq_true, if_false]
    · unfold compute_score reasonsOf
      simp only [hfs, Bool.false_eq_true, if_false, List.append_nil]
      simp [List.mem_append]
  · intro e v
    have hf : senderFlag ([] : Str) = false := rfl
    refine ⟨hf, ?_⟩
    unfold compute_score reasonsOf
    simp only [hf, Bool.false_eq_true, if_false, List.append_nil]
    simp [List.mem_append]

end SDRB
